import Mathlib

/-!
Verification development for the WhatsApp bulk messenger (`main.go`).

Go strings are modelled as `List Char`; the external collaborators
(the WebDriver session, the filesystem, the clock) are modelled as an
oracle record `Env`, and `main` as a pure function from the oracle to
the trace of externally visible events, translated branch-for-branch
from `main.go`.  The virtual clock advances only through `time.Sleep`
calls (WebDriver call latency is not modelled), so the 30-second poll
window at 500 ms steps yields 60 poll rounds and the 120-second login
window at 1 s steps yields polls at whole-second marks.
-/

namespace WSBulk

/-- Go strings, modelled as lists of characters. -/
abbrev Str := List Char

/-- Coerce a Lean string literal to the model type. -/
def str (s : String) : Str := s.data

/-- Go `unicode.IsSpace`: the Unicode white-space code points. -/
def isGoSpace (c : Char) : Bool :=
  c.toNat = 9 ∨ c.toNat = 10 ∨ c.toNat = 11 ∨ c.toNat = 12 ∨ c.toNat = 13 ∨
  c.toNat = 32 ∨ c.toNat = 0x85 ∨ c.toNat = 0xA0 ∨ c.toNat = 0x1680 ∨
  (0x2000 ≤ c.toNat ∧ c.toNat ≤ 0x200A) ∨ c.toNat = 0x2028 ∨
  c.toNat = 0x2029 ∨ c.toNat = 0x202F ∨ c.toNat = 0x205F ∨ c.toNat = 0x3000

/-- Go `strings.TrimSpace`: drop leading and trailing white space. -/
def trimSpace (s : Str) : Str :=
  ((s.dropWhile isGoSpace).reverse.dropWhile isGoSpace).reverse

/-- Go `bufio.ScanLines` helper `dropCR`: drop one trailing carriage return. -/
def dropCR (s : Str) : Str :=
  if s.getLast? = some (Char.ofNat 13) then s.dropLast else s

/-- Split a character list at every newline, keeping empty pieces. -/
def splitNL : Str → List Str
  | [] => [[]]
  | c :: rest =>
    if c = Char.ofNat 10 then [] :: splitNL rest
    else match splitNL rest with
      | [] => [[c]]
      | l :: ls => (c :: l) :: ls

/-- Go `bufio.Scanner` with `ScanLines`: the tokens produced for a whole
file content.  A final empty remainder after the last newline (or an empty
file) produces no token; each token has a trailing carriage return dropped. -/
def scanLines (content : Str) : List Str :=
  let parts := splitNL content
  (if parts.getLast? = some [] then parts.dropLast else parts).map dropCR

/-- Go `readLines` (main.go:43): scan the file content line by line, trimming
each line with `strings.TrimSpace`. -/
def readLines (content : Str) : List Str :=
  (scanLines content).map trimSpace

/-- UTF-8 encoding of one character, as Go produces for string bytes. -/
def utf8Bytes (c : Char) : List Nat :=
  let n := c.toNat
  if n < 0x80 then [n]
  else if n < 0x800 then [0xC0 + n / 64, 0x80 + n % 64]
  else if n < 0x10000 then
    [0xE0 + n / 4096, 0x80 + n / 64 % 64, 0x80 + n % 64]
  else
    [0xF0 + n / 262144, 0x80 + n / 4096 % 64, 0x80 + n / 64 % 64, 0x80 + n % 64]

/-- Upper-case hexadecimal digit, as in Go `net/url` percent escapes. -/
def hexUpper (n : Nat) : Char :=
  if n < 10 then Char.ofNat (48 + n) else Char.ofNat (55 + n)

/-- Go `net/url.shouldEscape` in query-component mode, negated: bytes kept
verbatim are ASCII letters, digits, and `-`, `_`, `.`, `~`. -/
def isUnreservedQueryByte (b : Nat) : Bool :=
  (65 ≤ b ∧ b ≤ 90) ∨ (97 ≤ b ∧ b ≤ 122) ∨ (48 ≤ b ∧ b ≤ 57) ∨
  b = 45 ∨ b = 95 ∨ b = 46 ∨ b = 126

/-- Escape one byte as Go `net/url.QueryEscape` does: unreserved bytes kept,
space becomes `+`, everything else becomes a `%XX` upper-case escape. -/
def escapeQueryByte (b : Nat) : Str :=
  if isUnreservedQueryByte b then [Char.ofNat b]
  else if b = 32 then [Char.ofNat 43]
  else [Char.ofNat 37, hexUpper (b / 16), hexUpper (b % 16)]

/-- Go `net/url.QueryEscape` over the UTF-8 bytes of the string. -/
def queryEscape (s : Str) : Str :=
  (s.map (fun c => ((utf8Bytes c).map escapeQueryByte).flatten)).flatten

/-! ### Compiled-in constants (main.go:17-40) -/

def chromeDriverPath : String := "chromedriver-win64\\chromedriver.exe"

def useProfile : Bool := true

def numbersFilePath : String := "numbers.txt"

def messageFilePath : String := "text.txt"

def logsDir : String := "logs"

def whatsAppURL : String := "https://web.whatsapp.com/"

def seleniumPort : Nat := 9515

/-! ### Selectors (main.go:158, 204-214) -/

/-- Selector strategies used with `wd.FindElement`. -/
inductive SelType where
  | xpath
  | css
deriving DecidableEq

/-- A WebDriver element selector. -/
structure Selector where
  type : SelType
  path : String
deriving DecidableEq

def loginCheckSelector : Selector := ⟨.css, "div[role=\x27textbox\x27]"⟩

/-- The five alternative send-button selectors, in source order
(main.go:204-213). -/
def sendButtonSelectors : List Selector :=
  [⟨.xpath, "//span[@data-icon=\x27wds-ic-send-filled\x27]"⟩,
   ⟨.xpath, "//button[@aria-label=\x27Send\x27]"⟩,
   ⟨.xpath, "//button[@aria-label=\x27GÃ¶nder\x27]"⟩,
   ⟨.css, "span[data-testid=\x27send\x27]"⟩,
   ⟨.css, "button[data-testid=\x27send\x27]"⟩]

def messageBoxSelector : Selector :=
  ⟨.css, "div[data-testid=\x27conversation-compose-box-input\x27]"⟩

/-! ### Events and the oracle environment -/

/-- Identifiers of the live `logMessage`/`log.Fatalf` call sites. -/
inductive LogId where
  | setupFatal
  | appStarted
  | svcSpecifiedFailed
  | svcBothFailed
  | profileAbsFailed
  | profileMkdirFailed
  | profileStatFailed
  | remoteFailed
  | openWAFailed
  | loginFound
  | loginFailed
  | readNumbersFailed
  | noNumbers
  | readMessageFailed
  | emptyMessage
  | navFailed (n : Str)
  | skipNotSent (n : Str)
  | successEnter (n : Str)
  | enterFailed (n : Str)
  | skipPersistent (n : Str)
  | successSent (n : Str)
  | allCompleted
  | checkWA
  | closing
  | appFinished
deriving DecidableEq

/-- Externally visible events of a run, in program order. -/
inductive Ev where
  | logLine (id : LogId)
  | exit (code : Nat)
  | startDriver (path : Str)
  | connect
  | nav (url : Str)
  | findLogin
  | findSel (s : Nat)
  | findMsgBox
  | click
  | sendEnter
  | sleep (ms : Nat)
  | readFile (path : Str)
  | encode
deriving DecidableEq

/-- Oracle answers for one send-button element lookup. -/
structure ElemSt where
  found : Bool
  displayed : Bool
  enabled : Bool
deriving DecidableEq

/-- The element is found without error, displayed and enabled
(main.go:236-239). -/
def accepts (e : ElemSt) : Bool := e.found && e.displayed && e.enabled

/-- Oracle answers for one iteration of the send loop. -/
structure NumEnv where
  navOk : Bool
  btn : Nat → Nat → ElemSt
  clickOk : Bool
  nfBoxFound : Bool
  nfBoxDisplayed : Bool
  nfEnterOk : Bool
  cfBoxFound : Bool
  cfEnterOk : Bool

/-- Result of `os.Stat` on the profile folder. -/
inductive StatRes where
  | found
  | notExist
  | statErr
deriving DecidableEq

/-- Oracle answers for a whole run. -/
structure Env where
  logSetupOk : Bool
  svcSpecifiedOk : Bool
  svcPathOk : Bool
  absOk : Bool
  profStat : StatRes
  mkdirOk : Bool
  remoteOk : Bool
  openWAOk : Bool
  loginFind : Nat → Bool
  numbersFile : Option Str
  messageFile : Option Str
  numEnv : Nat → NumEnv

/-! ### The login wait (main.go:161-173) -/

/-- Selenium `WaitWithTimeoutAndInterval` with the login condition: polls the login
selector once per second; the condition logs when the element is found; the
wait fails once the virtual elapsed time exceeds 120 seconds.  `k` counts the
elapsed seconds, `fuel` is an upper bound on the remaining iterations (122
iterations always suffice, so the fuel never runs out where this is used). -/
def loginWaitAux (f : Nat → Bool) : Nat → Nat → List Ev × Bool
  | _, 0 => ([], false)
  | k, fuel + 1 =>
    if f k then ([.findLogin, .logLine .loginFound], true)
    else if k > 120 then ([.findLogin], false)
    else
      (.findLogin :: .sleep 1000 :: (loginWaitAux f (k + 1) fuel).1,
       (loginWaitAux f (k + 1) fuel).2)

def loginWait (f : Nat → Bool) : List Ev × Bool := loginWaitAux f 0 122

/-! ### The send-button poll loop (main.go:229-250) -/

/-- Inner selector scan (main.go:234-245): try the selectors with the given
indices in order, stopping at the first whose element is found, displayed and
enabled. -/
def scanFrom (btn : Nat → ElemSt) : List Nat → Option Nat × List Ev
  | [] => (none, [])
  | s :: rest =>
    if accepts (btn s) then (some s, [.findSel s])
    else
      let r := scanFrom btn rest
      (r.1, .findSel s :: r.2)

/-- One poll round over the five selectors, in source order. -/
def scanSelectors (btn : Nat → ElemSt) : Option Nat × List Ev :=
  scanFrom btn [0, 1, 2, 3, 4]

/-- Outer poll loop (main.go:233-250): while less than 30000 ms have elapsed,
scan the five selectors; if none is accepted, sleep 500 ms and retry.  `t` is
the poll-round number, `elapsedMs = 500 * t` the virtual elapsed time, and
`fuel` a bound on the remaining rounds (61 always suffices). -/
def pollLoopAux (btn : Nat → Nat → ElemSt) : Nat → Nat → Nat → Option (Nat × Nat) × List Ev
  | _, _, 0 => (none, [])
  | t, elapsedMs, fuel + 1 =>
    if elapsedMs < 30000 then
      match (scanSelectors (btn t)).1 with
      | some s => (some (t, s), (scanSelectors (btn t)).2)
      | none =>
        let r := pollLoopAux btn (t + 1) (elapsedMs + 500) fuel
        (r.1, (scanSelectors (btn t)).2 ++ .sleep 500 :: r.2)
    else (none, [])

/-- The whole 30-second send-button poll for one number. -/
def pollSendButton (btn : Nat → Nat → ElemSt) : Option (Nat × Nat) × List Ev :=
  pollLoopAux btn 0 0 61

/-! ### The send loop (main.go:216-296) -/

/-- The per-number send URL (main.go:222). -/
def sendURLFor (number encoded : Str) : Str :=
  str "https://web.whatsapp.com/send?phone=" ++ number ++ str "&text=" ++ encoded

/-- The events of one send-loop iteration after the navigation
(main.go:223-295): poll for the send button, click it — falling back to the
Enter key into the message box when the poll fails or the click fails — and
sleep. -/
def processOneTail (e : NumEnv) (number : Str) : List Ev :=
  if e.navOk = false then [.logLine (.navFailed number), .sleep 2000]
  else
    match (pollSendButton e.btn).1 with
    | some _ =>
      (pollSendButton e.btn).2 ++ .click ::
      (if e.clickOk then [.logLine (.successSent number), .sleep 5000]
       else
         .findMsgBox ::
         (if e.cfBoxFound then
            .sendEnter ::
            (if e.cfEnterOk then [.logLine (.successEnter number), .sleep 5000]
             else [.logLine (.enterFailed number), .logLine (.skipPersistent number), .sleep 2000])
          else [.logLine (.skipPersistent number), .sleep 2000]))
    | none =>
      (pollSendButton e.btn).2 ++ .findMsgBox ::
      (if e.nfBoxFound then
         (if e.nfBoxDisplayed then
            .sendEnter ::
            (if e.nfEnterOk then [.sleep 5000]
             else [.logLine (.skipNotSent number), .sleep 2000])
          else [.logLine (.skipNotSent number), .sleep 2000])
       else [.logLine (.skipNotSent number), .sleep 2000])

/-- One iteration of the send loop (main.go:216-296) for one (already
trimmed) number: empty numbers are skipped with no event; otherwise navigate
to the per-number send URL and continue with `processOneTail`. -/
def processOne (encoded : Str) (e : NumEnv) (number : Str) : List Ev :=
  if number = [] then []
  else .nav (sendURLFor number encoded) :: processOneTail e number

/-- The send loop over the remaining numbers, `i` being the index of the
first of them in the full list (the oracle is indexed by position). -/
def sendLoop (encoded : Str) (ne : Nat → NumEnv) : Nat → List Str → List Ev
  | _, [] => []
  | i, n :: rest => processOne encoded (ne i) n ++ sendLoop encoded ne (i + 1) rest

/-! ### The whole run (main.go:91-303) -/

/-- The closing log lines and sleep (main.go:298-302). -/
def mainTail : List Ev :=
  [.logLine .allCompleted, .logLine .checkWA, .logLine .closing,
   .sleep 10000, .logLine .appFinished]

/-- Steps 5-7 (main.go:177-296): read the numbers file, read the message
file, encode the message, run the send loop, then the closing lines. -/
def filesAndLoop (env : Env) : List Ev :=
  .readFile (str numbersFilePath) ::
  (match env.numbersFile with
   | none => [.logLine .readNumbersFailed, .exit 1]
   | some content =>
     if readLines content = [] then [.logLine .noNumbers, .exit 1]
     else
       .readFile (str messageFilePath) ::
       (match env.messageFile with
        | none => [.logLine .readMessageFailed, .exit 1]
        | some m =>
          if trimSpace m = [] then [.logLine .emptyMessage, .exit 1]
          else
            .encode ::
            (sendLoop (queryEscape (trimSpace m)) env.numEnv 0 (readLines content) ++ mainTail)))

/-- Step 4 from the login wait onwards (main.go:161-175). -/
def loginAndOn (env : Env) : List Ev :=
  if (loginWait env.loginFind).2 then
    (loginWait env.loginFind).1 ++ .sleep 3000 :: filesAndLoop env
  else (loginWait env.loginFind).1 ++ [.logLine .loginFailed, .exit 1]

/-- Steps 3-4 (main.go:145-175): connect to the WebDriver, open WhatsApp
Web, wait for login. -/
def sessionAndOn (env : Env) : List Ev :=
  .connect ::
  (if env.remoteOk then
     .nav (str whatsAppURL) ::
     (if env.openWAOk then loginAndOn env
      else [.logLine .openWAFailed, .exit 1])
   else [.logLine .remoteFailed, .exit 1])

/-- Step 2 (main.go:122-141): profile-folder setup under `useProfile`. -/
def profileAndOn (env : Env) : List Ev :=
  if useProfile then
    if env.absOk then
      match env.profStat with
      | .notExist =>
        if env.mkdirOk then sessionAndOn env
        else [.logLine .profileMkdirFailed, .exit 1]
      | .statErr => [.logLine .profileStatFailed, .exit 1]
      | .found => sessionAndOn env
    else [.logLine .profileAbsFailed, .exit 1]
  else sessionAndOn env

/-- Step 1 (main.go:100-116): start the ChromeDriver service from the
configured path, retrying from the system PATH when that fails. -/
def driverAndOn (env : Env) : List Ev :=
  if chromeDriverPath ≠ "" then
    .startDriver (str chromeDriverPath) ::
    (if env.svcSpecifiedOk then profileAndOn env
     else
       .logLine .svcSpecifiedFailed :: .startDriver [] ::
       (if env.svcPathOk then profileAndOn env
        else [.logLine .svcBothFailed, .exit 1]))
  else
    .startDriver [] ::
    (if env.svcPathOk then profileAndOn env
     else [.logLine .svcBothFailed, .exit 1])

/-- Go `main` (main.go:91-303) as a trace of events: set up logging (a failed
setup is a `log.Fatalf`, which logs and exits with status 1), then run the
stages in order. -/
def runMain (env : Env) : List Ev :=
  if env.logSetupOk then .logLine .appStarted :: driverAndOn env
  else [.logLine .setupFatal, .exit 1]

/-- The process entry point: `main` reads no command-line arguments
(`os.Args` is never referenced in main.go), so the argument vector is
ignored. -/
def runProgram (_args : List Str) (env : Env) : List Ev := runMain env

/-! ### The log file (main.go:58-89) -/

/-- Flags passed to `os.OpenFile`. -/
structure OpenFlags where
  append : Bool
  create : Bool
  wronly : Bool
  trunc : Bool
deriving DecidableEq

/-- Flags with which `setupLogFile` opens the log file with `O_APPEND|O_CREATE|O_WRONLY`
(main.go:72). -/
def logOpenFlags : OpenFlags := ⟨true, true, true, false⟩

/-- The log-file name built from the run start timestamp (main.go:68-69). -/
def logFileNameFor (ts : Str) : Str := ts ++ str "_log.txt"

/-- Go `setupLogFile` (main.go:60-78): the single file opened for the run, as
its name and open flags. -/
def setupLogFileGo (ts : Str) : Str × OpenFlags := (logFileNameFor ts, logOpenFlags)

/-- The contents of the log file and of the console. -/
structure LogState where
  fileContent : Str
  console : Str
deriving DecidableEq

/-- Go `logMessage` (main.go:81-89): print the message to the console, and
append the timestamp-prefixed message to the log file. -/
def logMessageGo (now msg : Str) (st : LogState) : LogState :=
  { fileContent := st.fileContent ++ (str "[" ++ now ++ str "] ") ++ msg
    console := st.console ++ msg }

/-- A run of `logMessage` calls, each with its own current time. -/
def logRun (msgs : List (Str × Str)) (st : LogState) : LogState :=
  msgs.foldl (fun acc p => logMessageGo p.1 p.2 acc) st

/-! ### Derived notions used by the theorems -/

/-- The events of one poll round in which no selector is accepted: the five
selectors tried in order, then the 500 ms sleep. -/
def failRound : List Ev :=
  [.findSel 0, .findSel 1, .findSel 2, .findSel 3, .findSel 4, .sleep 500]

/-- Specification-side first hit: the first poll round `t` (among the `k`
rounds starting at `t0`) in which some selector index `s < 5` is accepted,
with the least such `s`. -/
def firstHitFrom (btn : Nat → Nat → ElemSt) : Nat → Nat → Option (Nat × Nat)
  | _, 0 => none
  | t, k + 1 =>
    match (List.range 5).find? (fun s => accepts (btn t s)) with
    | some s => some (t, s)
    | none => firstHitFrom btn (t + 1) k

/-- Specification-side result of the 30-second poll: the lexicographically
first accepted (round, selector) pair among the 60 rounds. -/
def firstHit (btn : Nat → Nat → ElemSt) : Option (Nat × Nat) := firstHitFrom btn 0 60

/-- The navigation targets of a trace, in order. -/
def navEvents : List Ev → List Str
  | [] => []
  | .nav u :: r => u :: navEvents r
  | .logLine _ :: r => navEvents r
  | .exit _ :: r => navEvents r
  | .startDriver _ :: r => navEvents r
  | .connect :: r => navEvents r
  | .findLogin :: r => navEvents r
  | .findSel _ :: r => navEvents r
  | .findMsgBox :: r => navEvents r
  | .click :: r => navEvents r
  | .sendEnter :: r => navEvents r
  | .sleep _ :: r => navEvents r
  | .readFile _ :: r => navEvents r
  | .encode :: r => navEvents r

/-- Events that can occur inside the body of the send loop. -/
def isLoopEv : Ev → Bool
  | .nav _ => true
  | .logLine _ => true
  | .sleep _ => true
  | .findSel _ => true
  | .findMsgBox => true
  | .click => true
  | .sendEnter => true
  | _ => false

/-- Events that can occur in a send-loop iteration after the navigation. -/
def isTailEv : Ev → Bool
  | .logLine _ => true
  | .sleep _ => true
  | .findSel _ => true
  | .findMsgBox => true
  | .click => true
  | .sendEnter => true
  | _ => false

/-- The trace ends with a logged message immediately followed by
`os.Exit(1)`. -/
def AbortsLogged (l : List Ev) : Prop :=
  ∃ pre i, l = pre ++ [Ev.logLine i, Ev.exit 1]

/-- The trace is a completed run: its last event is the final log line. -/
def Completes (l : List Ev) : Prop :=
  ∃ pre, l = pre ++ [Ev.logLine .appFinished]

/-- Every run either aborts after a logged message or completes. -/
def GoodEnd (l : List Ev) : Prop := AbortsLogged l ∨ Completes l

/-! ### Concrete oracle environments -/

/-- A WebDriver oracle in which every element lookup succeeds at once. -/
def okBtn : Nat → Nat → ElemSt := fun _ _ => ⟨true, true, true⟩

/-- A WebDriver oracle in which the send button never appears. -/
def noBtn : Nat → Nat → ElemSt := fun _ _ => ⟨false, false, false⟩

/-- A fully successful send-loop iteration oracle. -/
def okNum : NumEnv := ⟨true, okBtn, true, true, true, true, true, true⟩

/-- No send button and no message box: nothing can be sent. -/
def noBoxNum : NumEnv := ⟨true, noBtn, true, false, false, false, false, false⟩

/-- No send button, but the message box is found and displayed. -/
def nfFallbackNum : NumEnv := ⟨true, noBtn, true, true, true, true, false, false⟩

/-- The navigation to the per-number URL fails. -/
def navFailNum : NumEnv := ⟨false, okBtn, true, true, true, true, true, true⟩

/-- The button is found but the click fails; the box accepts Enter. -/
def clickFailNum : NumEnv := ⟨true, okBtn, false, true, true, true, true, true⟩

/-- A fully successful run on one number and a short message. -/
def okEnv : Env :=
  { logSetupOk := true, svcSpecifiedOk := true, svcPathOk := true, absOk := true,
    profStat := .found, mkdirOk := true, remoteOk := true, openWAOk := true,
    loginFind := fun _ => true, numbersFile := some (str "123"),
    messageFile := some (str "hi"), numEnv := fun _ => okNum }

/-- Starting the driver from the configured path fails; the PATH retry
succeeds and the rest of the run succeeds. -/
def pathFallbackEnv : Env := { okEnv with svcSpecifiedOk := false }

/-- The numbers file is empty. -/
def noNumbersEnv : Env := { okEnv with numbersFile := some [] }

/-- The message file contains only white space. -/
def emptyMsgEnv : Env := { okEnv with messageFile := some (str "  ") }



/-! ### Lemmas about the selector scan and the poll loop -/

lemma scanFrom_fst (btn : Nat → ElemSt) (l : List Nat) :
    (scanFrom btn l).1 = l.find? (fun s => accepts (btn s)) := by
  induction l with
  | nil => rfl
  | cons s rest ih =>
    by_cases h : accepts (btn s) <;> simp [scanFrom, h, List.find?_cons, ih]

lemma scanFrom_snd_none (btn : Nat → ElemSt) (l : List Nat)
    (h : ∀ s ∈ l, accepts (btn s) = false) :
    (scanFrom btn l).2 = l.map .findSel := by
  induction l with
  | nil => rfl
  | cons s rest ih =>
    have hs : accepts (btn s) = false := h s (by simp)
    simp [scanFrom, hs, ih fun x hx => h x (by simp [hx])]

lemma scanFrom_mem (btn : Nat → ElemSt) (l : List Nat) (e : Ev)
    (h : e ∈ (scanFrom btn l).2) : ∃ s, e = .findSel s := by
  induction l with
  | nil => simp [scanFrom] at h
  | cons s rest ih =>
    by_cases hs : accepts (btn s) <;> simp [scanFrom, hs] at h
    · exact ⟨s, h⟩
    · rcases h with h | h
      · exact ⟨s, h⟩
      · exact ih h

lemma scanSelectors_fst (b : Nat → ElemSt) :
    (scanSelectors b).1 = (List.range 5).find? (fun s => accepts (b s)) := by
  have hr : List.range 5 = [0, 1, 2, 3, 4] := by decide
  rw [scanSelectors, scanFrom_fst, hr]

lemma pollLoopAux_spec (btn : Nat → Nat → ElemSt) :
    ∀ fuel t, fuel + t = 61 →
      (pollLoopAux btn t (500 * t) fuel).1 = firstHitFrom btn t (60 - t) ∧
      (firstHitFrom btn t (60 - t) = none →
        (pollLoopAux btn t (500 * t) fuel).2 =
          (List.replicate (60 - t) failRound).flatten) := by
  intro fuel
  induction fuel with
  | zero =>
    intro t ht
    have h61 : t = 61 := by omega
    subst h61
    simp [pollLoopAux, firstHitFrom]
  | succ fuel ih =>
    intro t ht
    by_cases h60 : t < 60
    · have hlt : 500 * t < 30000 := by omega
      have hk : 60 - t = (60 - (t + 1)) + 1 := by omega
      have h500 : 500 * t + 500 = 500 * (t + 1) := by ring
      cases hs : (scanSelectors (btn t)).1 with
      | some s =>
        have hfind : (List.range 5).find? (fun x => accepts (btn t x)) = some s := by
          rw [← scanSelectors_fst]; exact hs
        constructor
        · rw [hk]
          simp only [pollLoopAux, if_pos hlt, hs, firstHitFrom, hfind]
        · intro hnone
          rw [hk] at hnone
          simp only [firstHitFrom, hfind] at hnone
          exact absurd hnone (by simp)
      | none =>
        have hfind : (List.range 5).find? (fun x => accepts (btn t x)) = none := by
          rw [← scanSelectors_fst]; exact hs
        have hall : ∀ x ∈ [0, 1, 2, 3, 4], accepts (btn t x) = false := by
          intro x hx
          have hr : List.range 5 = [0, 1, 2, 3, 4] := by decide
          have := List.find?_eq_none.mp hfind x (by rw [hr]; exact hx)
          simpa using this
        have hscan : (scanSelectors (btn t)).2 = [.findSel 0, .findSel 1, .findSel 2, .findSel 3, .findSel 4] := by
          exact scanFrom_snd_none (btn t) [0, 1, 2, 3, 4] hall
        have ihs := ih (t + 1) (by omega)
        rw [← h500] at ihs
        constructor
        · rw [hk]
          simp only [pollLoopAux, if_pos hlt, hs, firstHitFrom, hfind]
          exact ihs.1
        · intro hnone
          have hnone2 : firstHitFrom btn (t + 1) (60 - (t + 1)) = none := by
            rw [hk] at hnone
            simpa only [firstHitFrom, hfind] using hnone
          simp only [pollLoopAux, if_pos hlt, hs]
          rw [hscan, ihs.2 hnone2, hk]
          simp [failRound, List.replicate_succ]
    · have h60e : t = 60 := by omega
      subst h60e
      simp [pollLoopAux, firstHitFrom]

lemma pollSendButton_fst (btn : Nat → Nat → ElemSt) :
    (pollSendButton btn).1 = firstHit btn := by
  have h := pollLoopAux_spec btn 61 0 rfl
  simpa [pollSendButton, firstHit] using h.1

lemma pollSendButton_snd_none (btn : Nat → Nat → ElemSt) (h : firstHit btn = none) :
    (pollSendButton btn).2 = (List.replicate 60 failRound).flatten := by
  have hs := pollLoopAux_spec btn 61 0 rfl
  simpa [pollSendButton] using hs.2 (by simpa [firstHit] using h)

lemma pollLoopAux_mem (btn : Nat → Nat → ElemSt) :
    ∀ fuel t el e, e ∈ (pollLoopAux btn t el fuel).2 →
      (∃ s, e = .findSel s) ∨ e = .sleep 500 := by
  intro fuel
  induction fuel with
  | zero => intro t el e h; simp [pollLoopAux] at h
  | succ fuel ih =>
    intro t el e h
    by_cases hlt : el < 30000
    · cases hs : (scanSelectors (btn t)).1 with
      | some s =>
        simp only [pollLoopAux, if_pos hlt, hs] at h
        exact Or.inl (scanFrom_mem (btn t) _ e h)
      | none =>
        simp only [pollLoopAux, if_pos hlt, hs, List.mem_append, List.mem_cons] at h
        rcases h with h | h | h
        · exact Or.inl (scanFrom_mem (btn t) _ e h)
        · exact Or.inr h
        · exact ih (t + 1) (el + 500) e h
    · simp [pollLoopAux, hlt] at h

/-! ### Event classification and navigation extraction -/

lemma navEvents_append (l m : List Ev) :
    navEvents (l ++ m) = navEvents l ++ navEvents m := by
  induction l with
  | nil => rfl
  | cons x r ih => cases x <;> simp [navEvents, ih]

lemma navEvents_eq_nil (l : List Ev) (h : ∀ e ∈ l, ∀ u, e ≠ Ev.nav u) :
    navEvents l = [] := by
  induction l with
  | nil => rfl
  | cons x r ih =>
    have hr := ih fun e he u => h e (by simp [he]) u
    cases x <;> simp [navEvents, hr]
    next u => exact h (.nav u) (by simp) u rfl

lemma loginWaitAux_mem (f : Nat → Bool) :
    ∀ fuel k e, e ∈ (loginWaitAux f k fuel).1 →
      e = .findLogin ∨ e = .sleep 1000 ∨ e = .logLine .loginFound := by
  intro fuel
  induction fuel with
  | zero => intro k e h; simp [loginWaitAux] at h
  | succ fuel ih =>
    intro k e h
    by_cases hf : f k
    · simp [loginWaitAux, hf] at h
      tauto
    · by_cases hk : k > 120
      · simp [loginWaitAux, hf, hk] at h
        tauto
      · simp [loginWaitAux, hf, hk] at h
        rcases h with h | h | h
        · tauto
        · tauto
        · exact ih (k + 1) e h

lemma pollSendButton_mem (btn : Nat → Nat → ElemSt) (e : Ev)
    (h : e ∈ (pollSendButton btn).2) : (∃ s, e = .findSel s) ∨ e = .sleep 500 :=
  pollLoopAux_mem btn 61 0 0 e h

lemma processOneTail_isTailEv (en : NumEnv) (n : Str) (e : Ev)
    (h : e ∈ processOneTail en n) : isTailEv e = true := by
  · rw [processOneTail] at h
    by_cases hnav : en.navOk = false
    · rw [if_pos hnav] at h
      exact List.all_eq_true.mp (by rfl) e h
    rw [if_neg hnav] at h
    cases hp : (pollSendButton en.btn).1 with
    | some q =>
      rw [hp] at h
      rcases List.mem_append.mp h with h | h
      · rcases pollSendButton_mem en.btn e h with ⟨s, rfl⟩ | rfl <;> rfl
      rcases List.mem_cons.mp h with rfl | h
      · rfl
      by_cases hc : en.clickOk = true
      · rw [if_pos hc] at h
        exact List.all_eq_true.mp (by rfl) e h
      rw [if_neg hc] at h
      rcases List.mem_cons.mp h with rfl | h
      · rfl
      by_cases hb : en.cfBoxFound = true
      · rw [if_pos hb] at h
        rcases List.mem_cons.mp h with rfl | h
        · rfl
        by_cases he : en.cfEnterOk = true
        · rw [if_pos he] at h
          exact List.all_eq_true.mp (by rfl) e h
        · rw [if_neg he] at h
          exact List.all_eq_true.mp (by rfl) e h
      · rw [if_neg hb] at h
        exact List.all_eq_true.mp (by rfl) e h
    | none =>
      rw [hp] at h
      rcases List.mem_append.mp h with h | h
      · rcases pollSendButton_mem en.btn e h with ⟨s, rfl⟩ | rfl <;> rfl
      rcases List.mem_cons.mp h with rfl | h
      · rfl
      by_cases hb : en.nfBoxFound = true
      · rw [if_pos hb] at h
        by_cases hd : en.nfBoxDisplayed = true
        · rw [if_pos hd] at h
          rcases List.mem_cons.mp h with rfl | h
          · rfl
          by_cases he : en.nfEnterOk = true
          · rw [if_pos he] at h
            exact List.all_eq_true.mp (by rfl) e h
          · rw [if_neg he] at h
            exact List.all_eq_true.mp (by rfl) e h
        · rw [if_neg hd] at h
          exact List.all_eq_true.mp (by rfl) e h
      · rw [if_neg hb] at h
        exact List.all_eq_true.mp (by rfl) e h

lemma processOne_isLoopEv (enc : Str) (en : NumEnv) (n : Str) (e : Ev)
    (h : e ∈ processOne enc en n) : isLoopEv e = true := by
  by_cases hn : n = []
  · simp [processOne, hn] at h
  · rw [processOne, if_neg hn] at h
    rcases List.mem_cons.mp h with rfl | h
    · rfl
    · have ht := processOneTail_isTailEv en n e h
      cases e <;> simp_all [isTailEv, isLoopEv]

lemma sendLoop_isLoopEv (enc : Str) (ne : Nat → NumEnv) :
    ∀ ns i e, e ∈ sendLoop enc ne i ns → isLoopEv e = true := by
  intro ns
  induction ns with
  | nil => intro i e h; simp [sendLoop] at h
  | cons n rest ih =>
    intro i e h
    rcases List.mem_append.mp h with h | h
    · exact processOne_isLoopEv enc (ne i) n e h
    · exact ih (i + 1) e h

lemma exit_not_mem_sendLoop (enc : Str) (ne : Nat → NumEnv) (i : Nat) (ns : List Str)
    (c : Nat) : Ev.exit c ∉ sendLoop enc ne i ns := by
  intro h
  simpa [isLoopEv] using sendLoop_isLoopEv enc ne ns i _ h

lemma encode_not_mem_sendLoop (enc : Str) (ne : Nat → NumEnv) (i : Nat) (ns : List Str) :
    Ev.encode ∉ sendLoop enc ne i ns := by
  intro h
  simpa [isLoopEv] using sendLoop_isLoopEv enc ne ns i _ h

lemma readFile_not_mem_sendLoop (enc : Str) (ne : Nat → NumEnv) (i : Nat) (ns : List Str)
    (p : Str) : Ev.readFile p ∉ sendLoop enc ne i ns := by
  intro h
  simpa [isLoopEv] using sendLoop_isLoopEv enc ne ns i _ h

/-! ### How runs end: log-and-exit or completion -/

lemma goodEnd_cons (x : Ev) {l : List Ev} (h : GoodEnd l) : GoodEnd (x :: l) := by
  rcases h with ⟨pre, i, rfl⟩ | ⟨pre, rfl⟩
  · exact Or.inl ⟨x :: pre, i, rfl⟩
  · exact Or.inr ⟨x :: pre, rfl⟩

lemma goodEnd_append (m : List Ev) {l : List Ev} (h : GoodEnd l) : GoodEnd (m ++ l) := by
  rcases h with ⟨pre, i, rfl⟩ | ⟨pre, rfl⟩
  · exact Or.inl ⟨m ++ pre, i, by simp⟩
  · exact Or.inr ⟨m ++ pre, by simp⟩

lemma completes_mainTail : Completes mainTail :=
  ⟨[.logLine .allCompleted, .logLine .checkWA, .logLine .closing, .sleep 10000], rfl⟩

lemma filesAndLoop_goodEnd (env : Env) : GoodEnd (filesAndLoop env) := by
  rw [filesAndLoop]
  refine goodEnd_cons _ ?_
  split
  · exact Or.inl ⟨[], .readNumbersFailed, rfl⟩
  split
  · exact Or.inl ⟨[], .noNumbers, rfl⟩
  refine goodEnd_cons _ ?_
  split
  · exact Or.inl ⟨[], .readMessageFailed, rfl⟩
  split
  · exact Or.inl ⟨[], .emptyMessage, rfl⟩
  · exact goodEnd_cons _ (goodEnd_append _ (Or.inr completes_mainTail))

lemma loginAndOn_goodEnd (env : Env) : GoodEnd (loginAndOn env) := by
  rw [loginAndOn]
  split
  · exact goodEnd_append _ (goodEnd_cons _ (filesAndLoop_goodEnd env))
  · exact Or.inl ⟨(loginWait env.loginFind).1, .loginFailed, rfl⟩

lemma sessionAndOn_goodEnd (env : Env) : GoodEnd (sessionAndOn env) := by
  rw [sessionAndOn]
  refine goodEnd_cons _ ?_
  split
  · refine goodEnd_cons _ ?_
    split
    · exact loginAndOn_goodEnd env
    · exact Or.inl ⟨[], .openWAFailed, rfl⟩
  · exact Or.inl ⟨[], .remoteFailed, rfl⟩

lemma profileAndOn_goodEnd (env : Env) : GoodEnd (profileAndOn env) := by
  rw [profileAndOn]
  split
  · split
    · split
      · split
        · exact sessionAndOn_goodEnd env
        · exact Or.inl ⟨[], .profileMkdirFailed, rfl⟩
      · exact Or.inl ⟨[], .profileStatFailed, rfl⟩
      · exact sessionAndOn_goodEnd env
    · exact Or.inl ⟨[], .profileAbsFailed, rfl⟩
  · exact sessionAndOn_goodEnd env

lemma driverAndOn_goodEnd (env : Env) : GoodEnd (driverAndOn env) := by
  rw [driverAndOn]
  split
  · refine goodEnd_cons _ ?_
    split
    · exact profileAndOn_goodEnd env
    · refine goodEnd_cons _ (goodEnd_cons _ ?_)
      split
      · exact profileAndOn_goodEnd env
      · exact Or.inl ⟨[], .svcBothFailed, rfl⟩
  · refine goodEnd_cons _ ?_
    split
    · exact profileAndOn_goodEnd env
    · exact Or.inl ⟨[], .svcBothFailed, rfl⟩

lemma runMain_goodEnd (env : Env) : GoodEnd (runMain env) := by
  rw [runMain]
  split
  · exact goodEnd_cons _ (driverAndOn_goodEnd env)
  · exact Or.inl ⟨[], .setupFatal, rfl⟩

/-! ### Shape of a successful login wait -/

lemma loginWaitAux_shape (f : Nat → Bool) :
    ∀ fuel k, (loginWaitAux f k fuel).2 = true →
      ∃ j, (loginWaitAux f k fuel).1 =
        (List.replicate j [Ev.findLogin, Ev.sleep 1000]).flatten ++
          [.findLogin, .logLine .loginFound] := by
  intro fuel
  induction fuel with
  | zero => intro k h; simp [loginWaitAux] at h
  | succ fuel ih =>
    intro k h
    by_cases hf : f k
    · exact ⟨0, by simp [loginWaitAux, hf]⟩
    · by_cases hk : k > 120
      · simp [loginWaitAux, hf, hk] at h
      · simp only [loginWaitAux, hf, hk, Bool.false_eq_true, if_false, if_neg] at h ⊢
        obtain ⟨j, hj⟩ := ih (k + 1) h
        refine ⟨j + 1, ?_⟩
        simp [hj, List.replicate_succ]

/-- Events of the login wait are polls, sleeps and the found-log. -/
lemma loginWait_mem (f : Nat → Bool) (e : Ev) (h : e ∈ (loginWait f).1) :
    e = .findLogin ∨ e = .sleep 1000 ∨ e = .logLine .loginFound :=
  loginWaitAux_mem f 122 0 e h

/-! ### The successful run, step by step -/

lemma runMain_success_eq (env : Env) (h1 : env.logSetupOk = true)
    (h2 : env.svcSpecifiedOk = true) (h3 : env.absOk = true)
    (h4 : env.profStat = .found) (h5 : env.remoteOk = true) (h6 : env.openWAOk = true)
    (h7 : (loginWait env.loginFind).2 = true)
    (c m : Str) (h8 : env.numbersFile = some c) (h9 : env.messageFile = some m)
    (h10 : readLines c ≠ []) (h11 : trimSpace m ≠ []) :
    runMain env =
      .logLine .appStarted :: .startDriver (str chromeDriverPath) :: .connect ::
      .nav (str whatsAppURL) ::
      ((loginWait env.loginFind).1 ++
        .sleep 3000 :: .readFile (str numbersFilePath) :: .readFile (str messageFilePath) ::
        .encode ::
        (sendLoop (queryEscape (trimSpace m)) env.numEnv 0 (readLines c) ++ mainTail)) := by
  rw [runMain, if_pos h1, driverAndOn, if_pos (by decide : chromeDriverPath ≠ ""),
    if_pos h2, profileAndOn, if_pos (by decide : useProfile = true), if_pos h3, h4]
  simp only [sessionAndOn, if_pos h5, if_pos h6, loginAndOn, if_pos h7, filesAndLoop, h8,
    if_neg h10, h9, if_neg h11]


/-! ### Navigation targets of the send loop -/

lemma pollSendButton_no_nav (btn : Nat → Nat → ElemSt) :
    navEvents (pollSendButton btn).2 = [] :=
  navEvents_eq_nil _ fun e he u => by
    rcases pollSendButton_mem btn e he with ⟨s, rfl⟩ | rfl <;> simp

lemma processOneTail_no_nav (en : NumEnv) (n : Str) :
    navEvents (processOneTail en n) = [] :=
  navEvents_eq_nil _ fun e he u => by
    have := processOneTail_isTailEv en n e he
    rintro rfl
    simp [isTailEv] at this

lemma processOne_navEvents (enc : Str) (en : NumEnv) (n : Str) (hn : n ≠ []) :
    navEvents (processOne enc en n) = [sendURLFor n enc] := by
  rw [processOne, if_neg hn, navEvents, processOneTail_no_nav]

lemma sendLoop_navEvents (enc : Str) (ne : Nat → NumEnv) :
    ∀ ns i, navEvents (sendLoop enc ne i ns) =
      (ns.filter (fun n => !n.isEmpty)).map (fun n => sendURLFor n enc) := by
  intro ns
  induction ns with
  | nil => intro i; rfl
  | cons n rest ih =>
    intro i
    rw [sendLoop, navEvents_append, ih]
    by_cases hn : n = []
    · subst hn
      simp [processOne, navEvents, List.filter_cons]
    · rw [processOne_navEvents enc (ne i) n hn]
      have hne : (!n.isEmpty) = true := by
        simp [List.isEmpty_iff, hn]
      simp [List.filter_cons, hne]

/-! ### Counting events across a run -/

lemma sendLoop_count_zero (enc : Str) (ne : Nat → NumEnv) (i : Nat) (ns : List Str)
    (e : Ev) (h : isLoopEv e = false) : (sendLoop enc ne i ns).count e = 0 :=
  List.count_eq_zero.mpr fun hm => by
    rw [sendLoop_isLoopEv enc ne ns i e hm] at h
    exact Bool.noConfusion h

lemma loginWait_count_zero (f : Nat → Bool) (e : Ev) (h1 : e ≠ .findLogin)
    (h2 : e ≠ .sleep 1000) (h3 : e ≠ .logLine .loginFound) :
    (loginWait f).1.count e = 0 :=
  List.count_eq_zero.mpr fun hm => by
    rcases loginWait_mem f e hm with rfl | rfl | rfl
    · exact h1 rfl
    · exact h2 rfl
    · exact h3 rfl

lemma filesAndLoop_count_readFile (env : Env) (p : Str) :
    (filesAndLoop env).count (.readFile p) ≤ 1 := by
  have hsend : ∀ enc ne i ns, (sendLoop enc ne i ns : List Ev).count (.readFile p) = 0 :=
    fun enc ne i ns => sendLoop_count_zero enc ne i ns _ rfl
  have hmt : mainTail.count (Ev.readFile p) = 0 := by
    simp [mainTail, List.count_cons]
  rw [filesAndLoop]
  by_cases hp : p = str numbersFilePath
  · subst hp
    rw [List.count_cons_self]
    have hone : ∀ l : List Ev,
        l.count (Ev.readFile (str numbersFilePath)) = 0 →
        l.count (Ev.readFile (str numbersFilePath)) + 1 ≤ 1 := by
      intro l h; omega
    split
    · exact hone _ (by decide)
    split
    · exact hone _ (by decide)
    refine hone _ ?_
    rw [List.count_cons_of_ne (by decide)]
    split
    · decide
    split
    · decide
    · rw [List.count_cons_of_ne (by decide), List.count_append, hsend, hmt]
  · rw [List.count_cons_of_ne (by simp [hp])]
    split
    · simp [List.count_cons]
    split
    · simp [List.count_cons]
    by_cases hq : p = str messageFilePath
    · subst hq
      rw [List.count_cons_self]
      have hone : ∀ l : List Ev,
          l.count (Ev.readFile (str messageFilePath)) = 0 →
          l.count (Ev.readFile (str messageFilePath)) + 1 ≤ 1 := by
        intro l h; omega
      split
      · exact hone _ (by decide)
      split
      · exact hone _ (by decide)
      · refine hone _ ?_
        rw [List.count_cons_of_ne (by decide), List.count_append, hsend, hmt]
    · rw [List.count_cons_of_ne (by simp [hq])]
      split
      · simp [List.count_cons]
      split
      · simp [List.count_cons]
      · rw [List.count_cons_of_ne (by rintro ⟨⟩), List.count_append, hsend, hmt]
        simp

lemma runMain_count_readFile (env : Env) (p : Str) :
    (runMain env).count (.readFile p) ≤ 1 := by
  have hfl := filesAndLoop_count_readFile env p
  have hlw : (loginWait env.loginFind).1.count (.readFile p) = 0 :=
    loginWait_count_zero _ _ (by rintro ⟨⟩) (by rintro ⟨⟩) (by rintro ⟨⟩)
  have hlog : (loginAndOn env).count (.readFile p) ≤ 1 := by
    rw [loginAndOn]
    split
    · rw [List.count_append, hlw, List.count_cons_of_ne (by rintro ⟨⟩)]
      simpa using hfl
    · rw [List.count_append, hlw]
      simp [List.count_cons]
  have hsess : (sessionAndOn env).count (.readFile p) ≤ 1 := by
    rw [sessionAndOn, List.count_cons_of_ne (by rintro ⟨⟩)]
    split
    · rw [List.count_cons_of_ne (by rintro ⟨⟩)]
      split
      · exact hlog
      · simp [List.count_cons]
    · simp [List.count_cons]
  have hprof : (profileAndOn env).count (.readFile p) ≤ 1 := by
    rw [profileAndOn]
    split
    · split
      · split
        · split
          · exact hsess
          · simp [List.count_cons]
        · simp [List.count_cons]
        · exact hsess
      · simp [List.count_cons]
    · exact hsess
  rw [runMain]
  split
  · rw [List.count_cons_of_ne (by rintro ⟨⟩), driverAndOn]
    split
    · rw [List.count_cons_of_ne (by rintro ⟨⟩)]
      split
      · exact hprof
      · rw [List.count_cons_of_ne (by rintro ⟨⟩), List.count_cons_of_ne (by rintro ⟨⟩)]
        split
        · exact hprof
        · simp [List.count_cons]
    · rw [List.count_cons_of_ne (by rintro ⟨⟩)]
      split
      · exact hprof
      · simp [List.count_cons]
  · simp [List.count_cons]

lemma runMain_count_encode_success (env : Env) (h1 : env.logSetupOk = true)
    (h2 : env.svcSpecifiedOk = true) (h3 : env.absOk = true)
    (h4 : env.profStat = .found) (h5 : env.remoteOk = true) (h6 : env.openWAOk = true)
    (h7 : (loginWait env.loginFind).2 = true)
    (c m : Str) (h8 : env.numbersFile = some c) (h9 : env.messageFile = some m)
    (h10 : readLines c ≠ []) (h11 : trimSpace m ≠ []) :
    (runMain env).count .encode = 1 := by
  rw [runMain_success_eq env h1 h2 h3 h4 h5 h6 h7 c m h8 h9 h10 h11]
  have hlw : (loginWait env.loginFind).1.count .encode = 0 :=
    loginWait_count_zero _ _ (by simp) (by simp) (by simp)
  have hsend : (sendLoop (queryEscape (trimSpace m)) env.numEnv 0 (readLines c)).count .encode = 0 :=
    sendLoop_count_zero _ _ _ _ _ rfl
  simp [List.count_cons, List.count_append, hlw, hsend, mainTail]


/-! ### TrimSpace characterisation -/

lemma head?_dropWhile_false {α : Type} (p : α → Bool) :
    ∀ (l : List α) (a : α), (l.dropWhile p).head? = some a → p a = false := by
  intro l
  induction l with
  | nil => intro a h; simp at h
  | cons b t ih =>
    intro a h
    by_cases hb : p b
    · rw [List.dropWhile_cons, if_pos hb] at h
      exact ih a h
    · rw [List.dropWhile_cons, if_neg hb] at h
      simp at h
      subst h
      exact Bool.not_eq_true _ ▸ (by simpa using hb)

/-- Trimming only removes characters: the original string is the trimmed
string surrounded by white space. -/
lemma trimSpace_decomp (s : Str) :
    ∃ a b, s = a ++ trimSpace s ++ b ∧ (∀ ch ∈ a, isGoSpace ch = true) ∧
      ∀ ch ∈ b, isGoSpace ch = true := by
  refine ⟨s.takeWhile isGoSpace,
    ((s.dropWhile isGoSpace).reverse.takeWhile isGoSpace).reverse, ?_, ?_, ?_⟩
  · rw [List.append_assoc]
    conv_lhs => rw [← List.takeWhile_append_dropWhile (p := isGoSpace) (l := s)]
    congr 1
    conv_lhs => rw [← List.reverse_reverse (s.dropWhile isGoSpace),
      ← List.takeWhile_append_dropWhile (p := isGoSpace)
        (l := (s.dropWhile isGoSpace).reverse), List.reverse_append]
    rfl
  · intro ch hch
    exact List.mem_takeWhile_imp hch
  · intro ch hch
    rw [List.mem_reverse] at hch
    exact List.mem_takeWhile_imp hch

/-- The trimmed string does not begin with white space. -/
lemma trimSpace_head? (s : Str) (ch : Char) (h : (trimSpace s).head? = some ch) :
    isGoSpace ch = false := by
  rw [trimSpace, List.head?_reverse] at h
  obtain ⟨t, ht⟩ := List.dropWhile_suffix (l := (s.dropWhile isGoSpace).reverse) isGoSpace
  have hne : (s.dropWhile isGoSpace).reverse.dropWhile isGoSpace ≠ [] := by
    intro hnil
    rw [hnil] at h
    simp at h
  have hlast : ((s.dropWhile isGoSpace).reverse).getLast? = some ch := by
    rw [← ht, List.getLast?_append_of_ne_nil _ hne]
    exact h
  rw [List.getLast?_reverse] at hlast
  exact head?_dropWhile_false isGoSpace s ch hlast

/-- The trimmed string does not end with white space. -/
lemma trimSpace_getLast? (s : Str) (ch : Char) (h : (trimSpace s).getLast? = some ch) :
    isGoSpace ch = false := by
  rw [trimSpace, List.getLast?_reverse] at h
  exact head?_dropWhile_false isGoSpace _ ch h

/-- A string of white space trims to the empty string. -/
lemma trimSpace_all_space (s : Str) (h : ∀ ch ∈ s, isGoSpace ch = true) :
    trimSpace s = [] := by
  have hd : s.dropWhile isGoSpace = [] := by
    rw [List.dropWhile_eq_nil_iff]
    intro x hx
    exact h x hx
  rw [trimSpace, hd]
  rfl


/-! ### The Enter-key fallback -/

lemma pollTrace_no_sendEnter (btn : Nat → Nat → ElemSt) :
    Ev.sendEnter ∉ (pollSendButton btn).2 := fun h => by
  rcases pollSendButton_mem btn _ h with ⟨s, hs⟩ | hs <;> exact Ev.noConfusion hs

lemma pollTrace_no_click (btn : Nat → Nat → ElemSt) :
    Ev.click ∉ (pollSendButton btn).2 := fun h => by
  rcases pollSendButton_mem btn _ h with ⟨s, hs⟩ | hs <;> exact Ev.noConfusion hs

/-- When the 30-second poll finds no send button, the iteration looks up the
message box, sends the Enter key exactly when the box is found and displayed,
and never clicks. -/
lemma processOne_fallback (enc : Str) (en : NumEnv) (n : Str) (hn : n ≠ [])
    (hnav : en.navOk = true) (hp : (pollSendButton en.btn).1 = none) :
    Ev.findMsgBox ∈ processOne enc en n ∧
    (Ev.sendEnter ∈ processOne enc en n ↔ en.nfBoxFound = true ∧ en.nfBoxDisplayed = true) ∧
    Ev.click ∉ processOne enc en n := by
  have h1 := pollTrace_no_sendEnter en.btn
  have h2 := pollTrace_no_click en.btn
  rw [processOne, if_neg hn, processOneTail, if_neg (by simp [hnav]), hp]
  refine ⟨?_, ?_, ?_⟩
  · simp [List.mem_append]
  · by_cases hb : en.nfBoxFound = true
    · by_cases hd : en.nfBoxDisplayed = true
      · by_cases he : en.nfEnterOk = true <;>
          simp [hb, hd, he, List.mem_append, h1]
      · simp [hb, hd, List.mem_append, h1]
    · simp [hb, List.mem_append, h1]
  · by_cases hb : en.nfBoxFound = true
    · by_cases hd : en.nfBoxDisplayed = true
      · by_cases he : en.nfEnterOk = true <;>
          simp [hb, hd, he, List.mem_append, h2]
      · simp [hb, hd, List.mem_append, h2]
    · simp [hb, List.mem_append, h2]

/-- When the button is found but its click fails and the message box is
found, the Enter key is sent. -/
lemma processOne_clickFail_enter (enc : Str) (en : NumEnv) (n : Str) (hn : n ≠ [])
    (hnav : en.navOk = true) (t s : Nat) (hp : (pollSendButton en.btn).1 = some (t, s))
    (hc : en.clickOk = false) (hb : en.cfBoxFound = true) :
    Ev.sendEnter ∈ processOne enc en n := by
  rw [processOne, if_neg hn, processOneTail, if_neg (by simp [hnav]), hp]
  by_cases he : en.cfEnterOk = true <;>
    simp [hc, hb, he, List.mem_append]

/-- A failed navigation is logged and the iteration skipped. -/
lemma processOne_navFail (enc : Str) (en : NumEnv) (n : Str) (hn : n ≠ [])
    (hnav : en.navOk = false) :
    processOne enc en n = [.nav (sendURLFor n enc), .logLine (.navFailed n), .sleep 2000] := by
  rw [processOne, if_neg hn, processOneTail, if_pos hnav]

/-- A successful iteration: navigate, poll, click, log success, sleep. -/
lemma processOne_success (enc : Str) (en : NumEnv) (n : Str) (hn : n ≠ [])
    (hnav : en.navOk = true) (t s : Nat) (hp : (pollSendButton en.btn).1 = some (t, s))
    (hc : en.clickOk = true) :
    processOne enc en n =
      .nav (sendURLFor n enc) :: (pollSendButton en.btn).2 ++
        [.click, .logLine (.successSent n), .sleep 5000] := by
  rw [processOne, if_neg hn, processOneTail, if_neg (by simp [hnav]), hp, if_pos hc]
  simp

/-! ### Aborting runs before the send loop -/

lemma runMain_noNumbers_eq (env : Env) (h1 : env.logSetupOk = true)
    (h2 : env.svcSpecifiedOk = true) (h3 : env.absOk = true)
    (h4 : env.profStat = .found) (h5 : env.remoteOk = true) (h6 : env.openWAOk = true)
    (h7 : (loginWait env.loginFind).2 = true)
    (c : Str) (h8 : env.numbersFile = some c) (hz : readLines c = []) :
    runMain env =
      .logLine .appStarted :: .startDriver (str chromeDriverPath) :: .connect ::
      .nav (str whatsAppURL) ::
      ((loginWait env.loginFind).1 ++
        [.sleep 3000, .readFile (str numbersFilePath), .logLine .noNumbers, .exit 1]) := by
  rw [runMain, if_pos h1, driverAndOn, if_pos (by decide : chromeDriverPath ≠ ""),
    if_pos h2, profileAndOn, if_pos (by decide : useProfile = true), if_pos h3, h4]
  simp only [sessionAndOn, if_pos h5, if_pos h6, loginAndOn, if_pos h7, filesAndLoop, h8,
    if_pos hz]

lemma runMain_emptyMessage_eq (env : Env) (h1 : env.logSetupOk = true)
    (h2 : env.svcSpecifiedOk = true) (h3 : env.absOk = true)
    (h4 : env.profStat = .found) (h5 : env.remoteOk = true) (h6 : env.openWAOk = true)
    (h7 : (loginWait env.loginFind).2 = true)
    (c m : Str) (h8 : env.numbersFile = some c) (hz : readLines c ≠ [])
    (h9 : env.messageFile = some m) (he : trimSpace m = []) :
    runMain env =
      .logLine .appStarted :: .startDriver (str chromeDriverPath) :: .connect ::
      .nav (str whatsAppURL) ::
      ((loginWait env.loginFind).1 ++
        [.sleep 3000, .readFile (str numbersFilePath), .readFile (str messageFilePath),
         .logLine .emptyMessage, .exit 1]) := by
  rw [runMain, if_pos h1, driverAndOn, if_pos (by decide : chromeDriverPath ≠ ""),
    if_pos h2, profileAndOn, if_pos (by decide : useProfile = true), if_pos h3, h4]
  simp only [sessionAndOn, if_pos h5, if_pos h6, loginAndOn, if_pos h7, filesAndLoop, h8,
    if_neg hz, h9, if_pos he]


/-! ### Claims -/

/-- C1 (amended): For every phone number processed, the send loop polls for a
send control for a window of 30 seconds (60 rounds at 500 ms), on each poll
trying exactly five alternative element selectors in a fixed order and
accepting the first element that is found, displayed and enabled, sleeping
500 ms between polls; if no such element is found within the window, the
program attempts the fallback of sending the Enter keystroke into the message
box: it looks up the message box and sends Enter exactly when the box is
found and displayed (otherwise it logs and skips the number), and it never
clicks a send button in that case. -/
theorem c1_poll_and_fallback :
    sendButtonSelectors.length = 5 ∧
    (∀ btn, (pollSendButton btn).1 = firstHit btn) ∧
    (∀ btn, firstHit btn = none →
      (pollSendButton btn).2 = (List.replicate 60 failRound).flatten) ∧
    (∀ enc en n, n ≠ [] → en.navOk = true → (pollSendButton en.btn).1 = none →
      Ev.findMsgBox ∈ processOne enc en n ∧
      (Ev.sendEnter ∈ processOne enc en n ↔
        en.nfBoxFound = true ∧ en.nfBoxDisplayed = true) ∧
      Ev.click ∉ processOne enc en n) := by
  refine ⟨rfl, pollSendButton_fst, pollSendButton_snd_none, ?_⟩
  intro enc en n hn hnav hp
  exact processOne_fallback enc en n hn hnav hp

/-- C1 counterexample: with no send button ever accepted and a message box
that is never found, the poll window expires and no Enter keystroke is sent,
refuting the unconditional "falls back to sending the Enter keystroke". -/
theorem c1_no_enter_when_box_missing :
    (pollSendButton noBtn).1 = none ∧
    Ev.findMsgBox ∈ processOne (str "m") noBoxNum (str "5") ∧
    Ev.sendEnter ∉ processOne (str "m") noBoxNum (str "5") := by
  decide

/-- C1 witness: the amended claim evaluated on concrete oracles: the poll
result refines the first-hit specification, the failed window is exactly 60
rounds of the five selectors with 500 ms sleeps, and with the box found and
displayed the Enter keystroke is sent. -/
theorem c1_witness :
    (pollSendButton noBtn).1 = firstHit noBtn ∧
    (pollSendButton noBtn).2 = (List.replicate 60 failRound).flatten ∧
    Ev.sendEnter ∈ processOne (str "m") nfFallbackNum (str "5") ∧
    Ev.click ∉ processOne (str "m") nfFallbackNum (str "5") := by
  refine ⟨c1_poll_and_fallback.2.1 noBtn, c1_poll_and_fallback.2.2.1 noBtn (by decide), ?_, ?_⟩
  · exact ((c1_poll_and_fallback.2.2.2 (str "m") nfFallbackNum (str "5") (by decide) rfl
      (by decide)).2.1).mpr ⟨rfl, rfl⟩
  · exact (c1_poll_and_fallback.2.2.2 (str "m") nfFallbackNum (str "5") (by decide) rfl
      (by decide)).2.2

/-- C2 (amended): every failure path either logs and skips to the next phone
number or logs and exits the process; there is no retry of a failed send, and
the recovery mechanisms are exactly two fallbacks: the ChromeDriver service
is started again from the system PATH when starting it from the configured
path fails, and the message is sent via the Enter keystroke into the message
box when the send button is not found within the window or its click fails. -/
theorem c2_failure_paths :
    (∀ env, AbortsLogged (runMain env) ∨ Completes (runMain env)) ∧
    (∀ env, env.logSetupOk = true → env.svcSpecifiedOk = false →
      Ev.logLine .svcSpecifiedFailed ∈ runMain env ∧ Ev.startDriver [] ∈ runMain env) ∧
    (∀ enc ne i ns c, Ev.exit c ∉ sendLoop enc ne i ns) ∧
    (∀ enc en n, n ≠ [] → en.navOk = false →
      processOne enc en n =
        [.nav (sendURLFor n enc), .logLine (.navFailed n), .sleep 2000]) ∧
    (∀ enc en n, n ≠ [] → en.navOk = true →
      ((pollSendButton en.btn).1 = none → en.nfBoxFound = true →
        en.nfBoxDisplayed = true → Ev.sendEnter ∈ processOne enc en n) ∧
      (∀ t s, (pollSendButton en.btn).1 = some (t, s) → en.clickOk = false →
        en.cfBoxFound = true → Ev.sendEnter ∈ processOne enc en n)) := by
  refine ⟨runMain_goodEnd, ?_, exit_not_mem_sendLoop, processOne_navFail, ?_⟩
  · intro env h1 h2
    rw [runMain, if_pos h1, driverAndOn, if_pos (by decide : chromeDriverPath ≠ ""),
      if_neg (by simp [h2])]
    constructor
    · simp [List.mem_cons]
    · simp [List.mem_cons]
  · intro enc en n hn hnav
    constructor
    · intro hp hb hd
      exact ((processOne_fallback enc en n hn hnav hp).2.1).mpr ⟨hb, hd⟩
    · intro t s hp hc hb
      exact processOne_clickFail_enter enc en n hn hnav t s hp hc hb

/-- C2 counterexample: when the driver fails to start from the configured
path but starts from the PATH, the failure is logged yet the process neither
exits nor skips anything: a second start is attempted, the run completes, the
message is sent, and no Enter-key fallback is involved — a recovery mechanism
beyond the single fallback named by the claim. -/
theorem c2_driver_path_recovery :
    Ev.logLine .svcSpecifiedFailed ∈ runMain pathFallbackEnv ∧
    (runMain pathFallbackEnv).count (.startDriver (str chromeDriverPath)) = 1 ∧
    (runMain pathFallbackEnv).count (.startDriver []) = 1 ∧
    Ev.exit 1 ∉ runMain pathFallbackEnv ∧
    Ev.sendEnter ∉ runMain pathFallbackEnv ∧
    Ev.logLine (.successSent (str "123")) ∈ runMain pathFallbackEnv ∧
    (runMain pathFallbackEnv).getLast? = some (.logLine .appFinished) := by
  decide

/-- C2 witness: the amended claim evaluated on concrete runs: the PATH retry
happens after the logged driver failure, a failed navigation logs and skips,
and both Enter fallbacks fire on concrete oracles. -/
theorem c2_witness :
    (Ev.logLine .svcSpecifiedFailed ∈ runMain pathFallbackEnv ∧
      Ev.startDriver [] ∈ runMain pathFallbackEnv) ∧
    processOne (str "m") navFailNum (str "5") =
      [.nav (sendURLFor (str "5") (str "m")), .logLine (.navFailed (str "5")),
       .sleep 2000] ∧
    Ev.sendEnter ∈ processOne (str "m") nfFallbackNum (str "5") ∧
    Ev.sendEnter ∈ processOne (str "m") clickFailNum (str "5") := by
  refine ⟨c2_failure_paths.2.1 pathFallbackEnv rfl rfl, ?_, ?_, ?_⟩
  · exact c2_failure_paths.2.2.2.1 (str "m") navFailNum (str "5") (by decide) rfl
  · exact (c2_failure_paths.2.2.2.2 (str "m") nfFallbackNum (str "5") (by decide) rfl).1
      (by decide) rfl rfl
  · exact (c2_failure_paths.2.2.2.2 (str "m") clickFailNum (str "5") (by decide) rfl).2
      0 0 (by decide) rfl rfl


/-- C3: the program is a single linear sequence: start the driver service,
open a browser session, navigate to WhatsApp Web, poll for login, read the
numbers file then the message file, then loop over the numbers, where each
iteration navigates to the per-number send URL, polls for a send control,
clicks it (or falls back to a keystroke), sleeps, and moves on; on the
success path no step is reordered or skipped. -/
theorem c3_linear_sequence :
    (∀ (env : Env) (c m : Str), env.logSetupOk = true → env.svcSpecifiedOk = true →
      env.absOk = true → env.profStat = .found → env.remoteOk = true →
      env.openWAOk = true → (loginWait env.loginFind).2 = true →
      env.numbersFile = some c → env.messageFile = some m →
      readLines c ≠ [] → trimSpace m ≠ [] →
      runMain env =
        .logLine .appStarted :: .startDriver (str chromeDriverPath) :: .connect ::
        .nav (str whatsAppURL) ::
        ((loginWait env.loginFind).1 ++
          .sleep 3000 :: .readFile (str numbersFilePath) ::
          .readFile (str messageFilePath) :: .encode ::
          (sendLoop (queryEscape (trimSpace m)) env.numEnv 0 (readLines c) ++ mainTail))) ∧
    (∀ f, (loginWait f).2 = true →
      ∃ j, (loginWait f).1 =
        (List.replicate j [Ev.findLogin, Ev.sleep 1000]).flatten ++
          [.findLogin, .logLine .loginFound]) ∧
    (∀ enc en n t s, n ≠ [] → en.navOk = true →
      (pollSendButton en.btn).1 = some (t, s) → en.clickOk = true →
      processOne enc en n =
        .nav (sendURLFor n enc) :: (pollSendButton en.btn).2 ++
          [.click, .logLine (.successSent n), .sleep 5000]) := by
  refine ⟨?_, ?_, ?_⟩
  · intro env c m h1 h2 h3 h4 h5 h6 h7 h8 h9 h10 h11
    exact runMain_success_eq env h1 h2 h3 h4 h5 h6 h7 c m h8 h9 h10 h11
  · intro f h
    exact loginWaitAux_shape f 122 0 h
  · intro enc en n t s hn hnav hp hc
    exact processOne_success enc en n hn hnav t s hp hc

/-- C3 witness: the linear step sequence of a concrete successful run. -/
theorem c3_witness :
    runMain okEnv =
      .logLine .appStarted :: .startDriver (str chromeDriverPath) :: .connect ::
      .nav (str whatsAppURL) ::
      ((loginWait okEnv.loginFind).1 ++
        .sleep 3000 :: .readFile (str numbersFilePath) ::
        .readFile (str messageFilePath) :: .encode ::
        (sendLoop (queryEscape (trimSpace (str "hi"))) okEnv.numEnv 0
          (readLines (str "123")) ++ mainTail)) :=
  c3_linear_sequence.1 okEnv (str "123") (str "hi") rfl rfl rfl rfl rfl rfl (by decide)
    rfl rfl (by decide) (by decide)

/-- C4: the phone numbers are the trimmed lines of the numbers file in file
order, and the send loop navigates once per non-empty number, in exactly that
order, pairing every number with the one encoded message. -/
theorem c4_numbers_in_order :
    (∀ c, readLines c = (scanLines c).map trimSpace) ∧
    (∀ enc ne i ns, navEvents (sendLoop enc ne i ns) =
      (ns.filter (fun n => !n.isEmpty)).map (fun n => sendURLFor n enc)) :=
  ⟨fun _ => rfl, fun enc ne i ns => sendLoop_navEvents enc ne ns i⟩

/-- C5: each input file is read at most once per run, never from within the
send loop or the closing lines, and on the success path both reads (the whole
numbers file, line-split, then the whole message file) happen before the send
loop, with no read before or after them elsewhere in the run. -/
theorem c5_files_read_once :
    (∀ env, (runMain env).count (.readFile (str numbersFilePath)) ≤ 1 ∧
      (runMain env).count (.readFile (str messageFilePath)) ≤ 1) ∧
    (∀ enc ne i ns p, Ev.readFile p ∉ sendLoop enc ne i ns) ∧
    (∀ p, Ev.readFile p ∉ mainTail) ∧
    (∀ (env : Env) (c m : Str), env.logSetupOk = true → env.svcSpecifiedOk = true →
      env.absOk = true → env.profStat = .found → env.remoteOk = true →
      env.openWAOk = true → (loginWait env.loginFind).2 = true →
      env.numbersFile = some c → env.messageFile = some m →
      readLines c ≠ [] → trimSpace m ≠ [] →
      ∃ pre, runMain env = pre ++ .readFile (str numbersFilePath) ::
        .readFile (str messageFilePath) :: .encode ::
        (sendLoop (queryEscape (trimSpace m)) env.numEnv 0 (readLines c) ++ mainTail) ∧
        ∀ p, Ev.readFile p ∉ pre) := by
  refine ⟨fun env => ⟨runMain_count_readFile env _, runMain_count_readFile env _⟩,
    fun enc ne i ns p => readFile_not_mem_sendLoop enc ne i ns p,
    fun p => by simp [mainTail], ?_⟩
  intro env c m h1 h2 h3 h4 h5 h6 h7 h8 h9 h10 h11
  refine ⟨.logLine .appStarted :: .startDriver (str chromeDriverPath) :: .connect ::
    .nav (str whatsAppURL) :: ((loginWait env.loginFind).1 ++ [.sleep 3000]), ?_, ?_⟩
  · rw [runMain_success_eq env h1 h2 h3 h4 h5 h6 h7 c m h8 h9 h10 h11]
    simp [List.append_assoc]
  · intro p hmem
    rcases List.mem_cons.mp hmem with h | hmem
    · exact Ev.noConfusion h
    rcases List.mem_cons.mp hmem with h | hmem
    · exact Ev.noConfusion h
    rcases List.mem_cons.mp hmem with h | hmem
    · exact Ev.noConfusion h
    rcases List.mem_cons.mp hmem with h | hmem
    · exact Ev.noConfusion h
    rcases List.mem_append.mp hmem with hmem | hmem
    · rcases loginWait_mem env.loginFind _ hmem with h | h | h <;> exact Ev.noConfusion h
    · rcases List.mem_singleton.mp hmem with h
      exact Ev.noConfusion h

/-- C5 witness: the reads-before-loop decomposition of a concrete run. -/
theorem c5_witness :
    ∃ pre, runMain okEnv = pre ++ .readFile (str numbersFilePath) ::
      .readFile (str messageFilePath) :: .encode ::
      (sendLoop (queryEscape (trimSpace (str "hi"))) okEnv.numEnv 0
        (readLines (str "123")) ++ mainTail) ∧
      ∀ p, Ev.readFile p ∉ pre :=
  c5_files_read_once.2.2.2 okEnv (str "123") (str "hi") rfl rfl rfl rfl rfl rfl
    (by decide) rfl rfl (by decide) (by decide)


lemma logRun_extends (msgs : List (Str × Str)) :
    ∀ st : LogState, ∃ suffix, (logRun msgs st).fileContent = st.fileContent ++ suffix := by
  induction msgs with
  | nil => intro st; exact ⟨[], by simp [logRun]⟩
  | cons p rest ih =>
    intro st
    obtain ⟨s2, hs2⟩ := ih (logMessageGo p.1 p.2 st)
    refine ⟨((str "[" ++ p.1 ++ str "] ") ++ p.2) ++ s2, ?_⟩
    rw [logRun, List.foldl_cons]
    rw [show (List.foldl (fun acc q => logMessageGo q.1 q.2 acc) (logMessageGo p.1 p.2 st)
      rest) = logRun rest (logMessageGo p.1 p.2 st) from rfl, hs2]
    simp [logMessageGo, List.append_assoc]

/-- C6: each run opens exactly one log file, whose name is the run timestamp
followed by a fixed extension, with the append, create and write-only flags
and without truncation; `logMessage` appends the timestamp-prefixed message
to the existing file content (never truncating it) and echoes the message to
the console; a whole run of log calls only ever extends the file. -/
theorem c6_logging (ts now msg : Str) (st : LogState) (msgs : List (Str × Str)) :
    (setupLogFileGo ts).1 = ts ++ str "_log.txt" ∧
    (setupLogFileGo ts).2 = logOpenFlags ∧
    logOpenFlags.append = true ∧ logOpenFlags.create = true ∧
    logOpenFlags.wronly = true ∧ logOpenFlags.trunc = false ∧
    (logMessageGo now msg st).fileContent =
      st.fileContent ++ (str "[" ++ now ++ str "] ") ++ msg ∧
    (logMessageGo now msg st).console = st.console ++ msg ∧
    (∃ suffix, (logRun msgs st).fileContent = st.fileContent ++ suffix) :=
  ⟨rfl, rfl, rfl, rfl, rfl, rfl, rfl, rfl, logRun_extends msgs st⟩

/-- C7: the program reads no command-line arguments (`os.Args` is never
referenced), so two runs with the same file contents and collaborator
responses behave identically whatever the argument vector is. -/
theorem c7_args_ignored (a b : List Str) (env : Env) :
    runProgram a env = runProgram b env := rfl

/-- C8: every line read from the numbers file is trimmed of leading and
trailing white space before use (each used line is the trim of a raw file
line, and neither starts nor ends with white space; trimming removes only
surrounding white space, and a line of white space trims to empty), and a
line that is empty after trimming is skipped by the send loop with no
navigation, no polling, no fallback and no log entry. -/
theorem c8_trim_and_skip :
    (∀ c l, l ∈ readLines c →
      (∃ raw, raw ∈ scanLines c ∧ l = trimSpace raw) ∧
      (∀ ch, l.head? = some ch → isGoSpace ch = false) ∧
      (∀ ch, l.getLast? = some ch → isGoSpace ch = false)) ∧
    (∀ s, ∃ a b, s = a ++ trimSpace s ++ b ∧ (∀ ch ∈ a, isGoSpace ch = true) ∧
      (∀ ch ∈ b, isGoSpace ch = true)) ∧
    (∀ s, (∀ ch ∈ s, isGoSpace ch = true) → trimSpace s = []) ∧
    (∀ enc ne i rest, sendLoop enc ne i ([] :: rest) = sendLoop enc ne (i + 1) rest) ∧
    (∀ enc en, processOne enc en [] = []) := by
  refine ⟨?_, trimSpace_decomp, trimSpace_all_space, ?_, fun enc en => rfl⟩
  · intro c l hl
    rw [readLines] at hl
    obtain ⟨raw, hraw, hEq⟩ := List.mem_map.mp hl
    refine ⟨⟨raw, hraw, hEq.symm⟩, ?_, ?_⟩
    · intro ch hch
      rw [← hEq] at hch
      exact trimSpace_head? raw ch hch
    · intro ch hch
      rw [← hEq] at hch
      exact trimSpace_getLast? raw ch hch
  · intro enc ne i rest
    rw [sendLoop]
    simp [processOne]

/-- C8 witness: a concrete line with surrounding blanks is used trimmed, and
a white-space-only line trims to the empty string (and is hence skipped). -/
theorem c8_witness :
    ((∃ raw, raw ∈ scanLines (str " a ") ∧ str "a" = trimSpace raw) ∧
      (∀ ch, (str "a").head? = some ch → isGoSpace ch = false) ∧
      (∀ ch, (str "a").getLast? = some ch → isGoSpace ch = false)) ∧
    trimSpace (str "  ") = [] :=
  ⟨c8_trim_and_skip.1 (str " a ") (str "a") (by decide),
   c8_trim_and_skip.2.2.1 (str "  ") (by decide)⟩

lemma mem_abortTrace {env : Env} {tail : List Ev} (e : Ev)
    (h : e ∈ .logLine .appStarted :: .startDriver (str chromeDriverPath) :: .connect ::
      .nav (str whatsAppURL) :: ((loginWait env.loginFind).1 ++ tail)) :
    e = .logLine .appStarted ∨ e = .startDriver (str chromeDriverPath) ∨ e = .connect ∨
    e = .nav (str whatsAppURL) ∨ e = .findLogin ∨ e = .sleep 1000 ∨
    e = .logLine .loginFound ∨ e ∈ tail := by
  rcases List.mem_cons.mp h with h | h
  · tauto
  rcases List.mem_cons.mp h with h | h
  · tauto
  rcases List.mem_cons.mp h with h | h
  · tauto
  rcases List.mem_cons.mp h with h | h
  · tauto
  rcases List.mem_append.mp h with h | h
  · rcases loginWait_mem env.loginFind e h with h | h | h <;> tauto
  · tauto

/-- C9: if the numbers file yields zero lines, or the message trims to
empty, the program logs the condition and exits with status 1 before the
send loop: no message encoding, no click, no Enter keystroke, and no
navigation other than to the WhatsApp home page ever happens. -/
theorem c9_empty_inputs :
    (∀ (env : Env) (c : Str), env.logSetupOk = true → env.svcSpecifiedOk = true →
      env.absOk = true → env.profStat = .found → env.remoteOk = true →
      env.openWAOk = true → (loginWait env.loginFind).2 = true →
      env.numbersFile = some c → readLines c = [] →
      (∃ pre, runMain env =
        pre ++ [.readFile (str numbersFilePath), .logLine .noNumbers, .exit 1]) ∧
      Ev.encode ∉ runMain env ∧ Ev.click ∉ runMain env ∧
      Ev.sendEnter ∉ runMain env ∧
      (∀ u, Ev.nav u ∈ runMain env → u = str whatsAppURL)) ∧
    (∀ (env : Env) (c m : Str), env.logSetupOk = true → env.svcSpecifiedOk = true →
      env.absOk = true → env.profStat = .found → env.remoteOk = true →
      env.openWAOk = true → (loginWait env.loginFind).2 = true →
      env.numbersFile = some c → readLines c ≠ [] →
      env.messageFile = some m → trimSpace m = [] →
      (∃ pre, runMain env =
        pre ++ [.readFile (str numbersFilePath), .readFile (str messageFilePath),
                .logLine .emptyMessage, .exit 1]) ∧
      Ev.encode ∉ runMain env ∧ Ev.click ∉ runMain env ∧
      Ev.sendEnter ∉ runMain env ∧
      (∀ u, Ev.nav u ∈ runMain env → u = str whatsAppURL)) := by
  constructor
  · intro env c h1 h2 h3 h4 h5 h6 h7 h8 hz
    have hT := runMain_noNumbers_eq env h1 h2 h3 h4 h5 h6 h7 c h8 hz
    refine ⟨⟨.logLine .appStarted :: .startDriver (str chromeDriverPath) :: .connect ::
      .nav (str whatsAppURL) :: ((loginWait env.loginFind).1 ++ [.sleep 3000]), ?_⟩,
      ?_, ?_, ?_, ?_⟩
    · rw [hT]; simp [List.append_assoc]
    · rw [hT]; intro hmem
      rcases mem_abortTrace _ hmem with h | h | h | h | h | h | h | h <;>
        first | exact Ev.noConfusion h | simp at h
    · rw [hT]; intro hmem
      rcases mem_abortTrace _ hmem with h | h | h | h | h | h | h | h <;>
        first | exact Ev.noConfusion h | simp at h
    · rw [hT]; intro hmem
      rcases mem_abortTrace _ hmem with h | h | h | h | h | h | h | h <;>
        first | exact Ev.noConfusion h | simp at h
    · rw [hT]; intro u hmem
      rcases mem_abortTrace _ hmem with h | h | h | h | h | h | h | h <;>
        first | exact Ev.noConfusion h | (simp only [Ev.nav.injEq] at h; exact h) | simp at h
  · intro env c m h1 h2 h3 h4 h5 h6 h7 h8 hz h9 he
    have hT := runMain_emptyMessage_eq env h1 h2 h3 h4 h5 h6 h7 c m h8 hz h9 he
    refine ⟨⟨.logLine .appStarted :: .startDriver (str chromeDriverPath) :: .connect ::
      .nav (str whatsAppURL) :: ((loginWait env.loginFind).1 ++ [.sleep 3000]), ?_⟩,
      ?_, ?_, ?_, ?_⟩
    · rw [hT]; simp [List.append_assoc]
    · rw [hT]; intro hmem
      rcases mem_abortTrace _ hmem with h | h | h | h | h | h | h | h <;>
        first | exact Ev.noConfusion h | simp at h
    · rw [hT]; intro hmem
      rcases mem_abortTrace _ hmem with h | h | h | h | h | h | h | h <;>
        first | exact Ev.noConfusion h | simp at h
    · rw [hT]; intro hmem
      rcases mem_abortTrace _ hmem with h | h | h | h | h | h | h | h <;>
        first | exact Ev.noConfusion h | simp at h
    · rw [hT]; intro u hmem
      rcases mem_abortTrace _ hmem with h | h | h | h | h | h | h | h <;>
        first | exact Ev.noConfusion h | (simp only [Ev.nav.injEq] at h; exact h) | simp at h

/-- C9 witness: concrete runs with an empty numbers file and with a
white-space-only message abort before the loop and never navigate to a send
URL, click, send Enter, or encode. -/
theorem c9_witness :
    ((∃ pre, runMain noNumbersEnv =
        pre ++ [.readFile (str numbersFilePath), .logLine .noNumbers, .exit 1]) ∧
      Ev.encode ∉ runMain noNumbersEnv ∧ Ev.click ∉ runMain noNumbersEnv ∧
      Ev.sendEnter ∉ runMain noNumbersEnv ∧
      (∀ u, Ev.nav u ∈ runMain noNumbersEnv → u = str whatsAppURL)) ∧
    ((∃ pre, runMain emptyMsgEnv =
        pre ++ [.readFile (str numbersFilePath), .readFile (str messageFilePath),
                .logLine .emptyMessage, .exit 1]) ∧
      Ev.encode ∉ runMain emptyMsgEnv ∧ Ev.click ∉ runMain emptyMsgEnv ∧
      Ev.sendEnter ∉ runMain emptyMsgEnv ∧
      (∀ u, Ev.nav u ∈ runMain emptyMsgEnv → u = str whatsAppURL)) :=
  ⟨c9_empty_inputs.1 noNumbersEnv [] rfl rfl rfl rfl rfl rfl (by decide) rfl (by decide),
   c9_empty_inputs.2 emptyMsgEnv (str "123") (str "  ") rfl rfl rfl rfl rfl rfl
     (by decide) rfl (by decide) rfl (by decide)⟩

/-- C10: the message body is query-escaped (Go `net/url.QueryEscape`
semantics, e.g. space to `+`, `&` to `%26`, UTF-8 bytes percent-escaped)
exactly once, before the send loop, and for every number `n` the navigation
target is exactly `"https://web.whatsapp.com/send?phone=" ++ n ++ "&text=" ++
encodedMessage`, with the identical encoded message for all numbers. -/
theorem c10_url_encoding :
    (∀ n enc, sendURLFor n enc =
      str "https://web.whatsapp.com/send?phone=" ++ n ++ str "&text=" ++ enc) ∧
    queryEscape (str "hello world&ä") = str "hello+world%26%C3%A4" ∧
    (∀ (env : Env) (c m : Str), env.logSetupOk = true → env.svcSpecifiedOk = true →
      env.absOk = true → env.profStat = .found → env.remoteOk = true →
      env.openWAOk = true → (loginWait env.loginFind).2 = true →
      env.numbersFile = some c → env.messageFile = some m →
      readLines c ≠ [] → trimSpace m ≠ [] →
      (runMain env).count .encode = 1 ∧
      (∃ pre, runMain env = pre ++ .encode ::
        (sendLoop (queryEscape (trimSpace m)) env.numEnv 0 (readLines c) ++ mainTail) ∧
        Ev.encode ∉ pre) ∧
      navEvents (sendLoop (queryEscape (trimSpace m)) env.numEnv 0 (readLines c)) =
        ((readLines c).filter (fun n => !n.isEmpty)).map
          (fun n => sendURLFor n (queryEscape (trimSpace m)))) := by
  refine ⟨fun n enc => rfl, by decide, ?_⟩
  intro env c m h1 h2 h3 h4 h5 h6 h7 h8 h9 h10 h11
  refine ⟨runMain_count_encode_success env h1 h2 h3 h4 h5 h6 h7 c m h8 h9 h10 h11,
    ⟨.logLine .appStarted :: .startDriver (str chromeDriverPath) :: .connect ::
      .nav (str whatsAppURL) :: ((loginWait env.loginFind).1 ++
        [.sleep 3000, .readFile (str numbersFilePath), .readFile (str messageFilePath)]),
      ?_, ?_⟩,
    sendLoop_navEvents (queryEscape (trimSpace m)) env.numEnv (readLines c) 0⟩
  · rw [runMain_success_eq env h1 h2 h3 h4 h5 h6 h7 c m h8 h9 h10 h11]
    simp [List.append_assoc]
  · intro hmem
    rcases mem_abortTrace _ hmem with h | h | h | h | h | h | h | h <;>
      first | exact Ev.noConfusion h | simp at h

/-- C10 witness: the decomposition of a concrete run around the single
encoding step, with the navigation targets of its loop. -/
theorem c10_witness :
    (runMain okEnv).count .encode = 1 ∧
    (∃ pre, runMain okEnv = pre ++ .encode ::
      (sendLoop (queryEscape (trimSpace (str "hi"))) okEnv.numEnv 0
        (readLines (str "123")) ++ mainTail) ∧
      Ev.encode ∉ pre) ∧
    navEvents (sendLoop (queryEscape (trimSpace (str "hi"))) okEnv.numEnv 0
        (readLines (str "123"))) =
      ((readLines (str "123")).filter (fun n => !n.isEmpty)).map
        (fun n => sendURLFor n (queryEscape (trimSpace (str "hi")))) :=
  c10_url_encoding.2.2 okEnv (str "123") (str "hi") rfl rfl rfl rfl rfl rfl
    (by decide) rfl rfl (by decide) (by decide)

end WSBulk
